import Mathlib

/-!
Shallow embedding of the provider-abstraction server in `src/server/index.ts`
(hairstyleai). The stateful HTTP layer is modelled by pure functions: the
request body is a record of optional JSON-ish values, the outbound network
call is modelled by passing the backend's `GenerateContentResponse` as an
argument, and routes additionally return a `Bool` recording whether the
backend adapter was actually invoked.
-/

namespace HairstyleAI

/-- A JSON value, as produced by `JSON.parse` for the untyped (`unknown`)
fields of a request body. An absent field is modelled as `none` at the
use site (`Option JsonValue`); an explicit JSON `null` is `JsonValue.null`. -/
inductive JsonValue : Type where
  | str (s : String)
  | num (n : Int)
  | bool (b : Bool)
  | null
  | obj (fields : List (String × JsonValue))
  | arr (elems : List JsonValue)

/-- JavaScript `typeof` restricted to the values `JsonValue` can hold
(`null` has typeof "object" in JS; arrays do too). -/
def JsonValue.typeof : JsonValue → String
  | .str _ => "string"
  | .num _ => "number"
  | .bool _ => "boolean"
  | .null => "object"
  | .obj _ => "object"
  | .arr _ => "object"

/-- Property access `value[key]` on a JSON value viewed as
`Record<string, unknown>`: for an object, the bound value (last binding
wins, as after `JSON.parse`); otherwise `undefined` (`none`). -/
def JsonValue.getProp (v : JsonValue) (key : String) : Option JsonValue :=
  match v with
  | .obj fields => (fields.filter (fun p => p.1 = key)).getLast?.map Prod.snd
  | _ => none

/-- JS truthiness of an optional string: `undefined`/`null` and the empty
string are falsy, every other string is truthy. -/
def jsTruthyStr : Option String → Bool
  | none => false
  | some s => s ≠ ""

/-- The characters JavaScript's `String.prototype.trim` strips
(the common WhiteSpace and LineTerminator code points). -/
def isJsWhitespace (c : Char) : Bool :=
  c == ' ' || c == '\t' || c == '\n' || c == '\r' ||
    c == '\x0b' || c == '\x0c' || c == ' '

/-- JavaScript `s.trim()`: strip leading and trailing whitespace. Defined by
structural recursion over the character list so that it evaluates. -/
def jsTrim (s : String) : String :=
  ⟨((s.data.dropWhile isJsWhitespace).reverse.dropWhile isJsWhitespace).reverse⟩

/-- `class HttpError extends Error` — the typed error of the server:
a message and an HTTP status code (src/server/index.ts:38). -/
structure HttpErr : Type where
  message : String
  statusCode : Nat
  deriving DecidableEq, Repr

/-- `type ReferenceImagePayload = { base64Data; mimeType }`
(src/server/index.ts:5). -/
structure ReferenceImagePayload : Type where
  base64Data : String
  mimeType : String
  deriving DecidableEq, Repr

/-- `type GeneratedContent = { image: string | null; text: string | null }`
(src/server/index.ts:33). -/
structure GeneratedContent : Type where
  image : Option String
  text : Option String
  deriving DecidableEq, Repr

/-- The inline binary payload of a content part
(`inlineData: { mimeType; data }`, src/server/index.ts:27). -/
structure InlineData : Type where
  mimeType : String
  data : String
  deriving DecidableEq, Repr

/-- `type LlmContentPart = { text?; inlineData? }` (src/server/index.ts:25). -/
structure LlmContentPart : Type where
  text : Option String
  inlineData : Option InlineData
  deriving DecidableEq, Repr

/-- The `promptFeedback` object of a backend response: an optional block
reason and an optional human-readable block message. -/
structure PromptFeedback : Type where
  blockReason : Option String
  blockReasonMessage : Option String
  deriving DecidableEq, Repr

/-- A candidate's `content` object, holding an optional list of parts. -/
structure CandidateContent : Type where
  parts : Option (List LlmContentPart)
  deriving DecidableEq, Repr

/-- One entry of a backend response's `candidates` array. -/
structure Candidate : Type where
  content : Option CandidateContent
  deriving DecidableEq, Repr

/-- The backend's `GenerateContentResponse`, as far as the server reads it:
`promptFeedback`, `candidates`, and the SDK accessor `response.text`
(the latter lives in the external `@google/genai` SDK, so it is modelled
as a field rather than derived). -/
structure GenerateContentResponse : Type where
  promptFeedback : Option PromptFeedback
  candidates : Option (List Candidate)
  text : Option String
  deriving DecidableEq, Repr

/-- The parsed body of a POST /api/llm/edit request: every field is
`unknown` in the source (`EditRequestBody`, src/server/index.ts:15-23),
hence an optional JSON value here (`none` = field absent). -/
structure EditRequestBody : Type where
  base64Data : Option JsonValue
  mimeType : Option JsonValue
  prompt : Option JsonValue
  referenceImage : Option JsonValue
  provider : Option JsonValue
  model : Option JsonValue

/-- The parsed body of a POST /api/llm/suggestions request
(`SuggestionsRequestBody`, src/server/index.ts:15). -/
structure SuggestionsRequestBody : Type where
  base64Data : Option JsonValue
  mimeType : Option JsonValue
  provider : Option JsonValue
  model : Option JsonValue

/-- The process configuration the routes read: the default model names
(`DEFAULT_SUGGESTION_MODEL`, `DEFAULT_IMAGE_MODEL`, src/server/index.ts:52-54). -/
structure ServerConfig : Type where
  defaultSuggestionModel : String
  defaultImageModel : String

/-- `DEFAULT_PROVIDER = 'gemini'` (src/server/index.ts:51). -/
def DEFAULT_PROVIDER : String := "gemini"

/-- `ensureNonEmptyString` (src/server/index.ts:265): the value must be a
string with non-empty trim, else a 400 error with the given message;
the original (untrimmed) string is returned. -/
def ensureNonEmptyString (value : Option JsonValue) (message : String) :
    Except HttpErr String :=
  match value with
  | some (.str s) => if (jsTrim s) = "" then .error ⟨message, 400⟩ else .ok s
  | _ => .error ⟨message, 400⟩

/-- `resolveProvider` (src/server/index.ts:273): a string value with
non-empty trim is taken (trimmed), otherwise the default provider; any
resolved provider other than "gemini" is a 400 error naming it. -/
def resolveProvider (value : Option JsonValue) : Except HttpErr String :=
  let provider :=
    match value with
    | some (.str s) => if (jsTrim s) = "" then DEFAULT_PROVIDER else (jsTrim s)
    | _ => DEFAULT_PROVIDER
  if provider = "gemini" then .ok provider
  else .error ⟨"Provedor \"" ++ provider ++ "\" não é suportado pelo servidor.", 400⟩

/-- `resolveModel` (src/server/index.ts:283): a string value with non-empty
trim wins (trimmed); anything else falls back. -/
def resolveModel (value : Option JsonValue) (fallback : String) : String :=
  match value with
  | some (.str s) => if (jsTrim s) = "" then fallback else (jsTrim s)
  | _ => fallback

/-- Prompt coercion in the edit route (src/server/index.ts:97):
`typeof body.prompt === 'string' ? body.prompt : ''`. -/
def coercePrompt (value : Option JsonValue) : String :=
  match value with
  | some (.str s) => s
  | _ => ""

/-- `normalizeReferenceImage` (src/server/index.ts:249): null/undefined
means no reference; a non-object is a 400 error; otherwise both
properties must pass `ensureNonEmptyString`. -/
def normalizeReferenceImage (value : Option JsonValue) :
    Except HttpErr (Option ReferenceImagePayload) :=
  match value with
  | none => .ok none
  | some .null => .ok none
  | some v =>
    if v.typeof ≠ "object" then
      .error ⟨"O campo \"referenceImage\" deve ser um objeto com base64Data e mimeType.", 400⟩
    else
      match ensureNonEmptyString (v.getProp "base64Data")
          "O campo \"referenceImage.base64Data\" é obrigatório." with
      | .error e => .error e
      | .ok base64Data =>
        match ensureNonEmptyString (v.getProp "mimeType")
            "O campo \"referenceImage.mimeType\" é obrigatório." with
        | .error e => .error e
        | .ok mimeType => .ok (some ⟨base64Data, mimeType⟩)

/-- `findImagePart` (src/server/index.ts:241): the first part of the first
candidate that has an `inlineData` payload, following the optional chain
`candidates?.[0]?.content?.parts?.find(...)`. -/
def findImagePart (response : GenerateContentResponse) : Option LlmContentPart :=
  (((response.candidates.bind List.head?).bind Candidate.content).bind
      CandidateContent.parts).bind
    (List.find? (fun part => part.inlineData.isSome))

/-- `findTextPart` (src/server/index.ts:245): the first part of the first
candidate whose `text` is truthy (present and non-empty). -/
def findTextPart (response : GenerateContentResponse) : Option LlmContentPart :=
  (((response.candidates.bind List.head?).bind Candidate.content).bind
      CandidateContent.parts).bind
    (List.find? (fun part => jsTruthyStr part.text))

/-- The generation instruction synthesized by `generateGeminiHairstyle`
(src/server/index.ts:190-202): without a reference image the prompt is
interpolated directly; with one, the trimmed prompt — or the fallback
phrase when it trims to empty — is used as secondary guidance. -/
def geminiEditFinalPrompt (prompt : String)
    (referenceImage : Option ReferenceImagePayload) : String :=
  match referenceImage with
  | none => "Aplique este estilo de cabelo na pessoa da imagem: " ++ prompt
  | some _ =>
    let promptFallback :=
      if (jsTrim prompt) = "" then "o estilo da imagem de referência" else (jsTrim prompt)
    "Usando o penteado da segunda imagem como principal referência visual, " ++
      "aplique um estilo semelhante na pessoa da primeira imagem. " ++
      "Use a seguinte descrição como guia adicional: " ++ promptFallback ++ "."

/-- The parts array sent by `generateGeminiHairstyle`
(src/server/index.ts:182-205): subject image, then the reference image
when present, then the instruction text. -/
def geminiEditParts (base64Data mimeType prompt : String)
    (referenceImage : Option ReferenceImagePayload) : List LlmContentPart :=
  let userImagePart : LlmContentPart := ⟨none, some ⟨mimeType, base64Data⟩⟩
  let refParts : List LlmContentPart :=
    match referenceImage with
    | none => []
    | some r => [⟨none, some ⟨r.mimeType, r.base64Data⟩⟩]
  userImagePart :: refParts ++ [⟨some (geminiEditFinalPrompt prompt referenceImage), none⟩]

/-- The block reason of a response, through the optional chain
`response.promptFeedback?.blockReason` (src/server/index.ts:217). -/
def blockReasonOf (response : GenerateContentResponse) : Option String :=
  response.promptFeedback.bind PromptFeedback.blockReason

/-- `response.promptFeedback?.blockReasonMessage`. -/
def blockReasonMessageOf (response : GenerateContentResponse) : Option String :=
  response.promptFeedback.bind PromptFeedback.blockReasonMessage

/-- The block message picked by `generateGeminiHairstyle`
(src/server/index.ts:219): `blockReasonMessage || blockReason || default`. -/
def geminiBlockMessage (response : GenerateContentResponse) : String :=
  if jsTruthyStr (blockReasonMessageOf response) then
    (blockReasonMessageOf response).getD ""
  else if jsTruthyStr (blockReasonOf response) then
    (blockReasonOf response).getD ""
  else "Solicitação bloqueada por motivos de segurança."

/-- Response handling of `generateGeminiHairstyle` after the network call
(src/server/index.ts:207-239): block check, then image/text extraction,
502 when neither is usable. The arguments before `response` mirror the
source signature; the network call itself is modelled by receiving
`response`. -/
def generateGeminiHairstyle (base64Data mimeType prompt : String)
    (referenceImage : Option ReferenceImagePayload) (model : String)
    (response : GenerateContentResponse) : Except HttpErr GeneratedContent :=
  if jsTruthyStr (blockReasonOf response) then
    .error ⟨"Sua solicitação foi bloqueada: " ++ geminiBlockMessage response, 400⟩
  else
    let imagePart := findImagePart response
    let textPart := findTextPart response
    let image : Option String :=
      match imagePart with
      | some p =>
        match p.inlineData with
        | some d => some ("data:" ++ d.mimeType ++ ";base64," ++ d.data)
        | none => none
      | none => none
    let text : Option String :=
      match textPart with
      | some p => if jsTruthyStr p.text then some (jsTrim (p.text.getD "")) else none
      | none => none
    if jsTruthyStr image || jsTruthyStr text then
      .ok ⟨image, text⟩
    else
      .error ⟨"A IA não conseguiu gerar uma imagem. Tente ajustar a descrição " ++
        "ou utilizar outra imagem de referência.", 502⟩

/-- `generateGeminiSuggestions` after the network call
(src/server/index.ts:147-157): the SDK text accessor must be truthy,
else a 502; on success the trimmed text is returned. -/
def generateGeminiSuggestions (base64Data mimeType model : String)
    (response : GenerateContentResponse) : Except HttpErr String :=
  match response.text with
  | some s =>
    if s = "" then .error ⟨"A IA não retornou sugestões. Tente novamente em instantes.", 502⟩
    else .ok (jsTrim s)
  | none => .error ⟨"A IA não retornou sugestões. Tente novamente em instantes.", 502⟩

/-- `generateHairstyle` (src/server/index.ts:160): dispatch on the provider
key; the Bool records whether the gemini backend was invoked. -/
def generateHairstyle (provider base64Data mimeType prompt : String)
    (referenceImage : Option ReferenceImagePayload) (model : String)
    (response : GenerateContentResponse) :
    Bool × Except HttpErr GeneratedContent :=
  if provider = "gemini" then
    (true, generateGeminiHairstyle base64Data mimeType prompt referenceImage model response)
  else
    (false, .error ⟨"Provedor \"" ++ provider ++ "\" não é suportado pelo servidor.", 400⟩)

/-- `generateSuggestions` (src/server/index.ts:118): dispatch on the
provider key; the Bool records whether the gemini backend was invoked. -/
def generateSuggestions (provider base64Data mimeType model : String)
    (response : GenerateContentResponse) : Bool × Except HttpErr String :=
  if provider = "gemini" then
    (true, generateGeminiSuggestions base64Data mimeType model response)
  else
    (false, .error ⟨"Provedor \"" ++ provider ++ "\" não é suportado pelo servidor.", 400⟩)

/-- The validated and resolved arguments of an edit call. -/
structure EditResolved : Type where
  base64Data : String
  mimeType : String
  prompt : String
  referenceImage : Option ReferenceImagePayload
  provider : String
  model : String

/-- The validation/resolution stage of the POST /api/llm/edit route
(src/server/index.ts:94-101), in source order: base64Data, mimeType,
prompt coercion, reference image, provider, model. -/
def resolveEditRequest (cfg : ServerConfig) (body : EditRequestBody) :
    Except HttpErr EditResolved :=
  match ensureNonEmptyString body.base64Data "O campo \"base64Data\" é obrigatório." with
  | .error e => .error e
  | .ok base64Data =>
    match ensureNonEmptyString body.mimeType "O campo \"mimeType\" é obrigatório." with
    | .error e => .error e
    | .ok mimeType =>
      let prompt := coercePrompt body.prompt
      match normalizeReferenceImage body.referenceImage with
      | .error e => .error e
      | .ok referenceImage =>
        match resolveProvider body.provider with
        | .error e => .error e
        | .ok provider =>
          .ok ⟨base64Data, mimeType, prompt, referenceImage, provider,
            resolveModel body.model cfg.defaultImageModel⟩

/-- The POST /api/llm/edit route (src/server/index.ts:93-105): validate and
resolve, then dispatch. The Bool records whether the backend was invoked. -/
def editRoute (cfg : ServerConfig) (body : EditRequestBody)
    (response : GenerateContentResponse) :
    Bool × Except HttpErr GeneratedContent :=
  match resolveEditRequest cfg body with
  | .error e => (false, .error e)
  | .ok r =>
    generateHairstyle r.provider r.base64Data r.mimeType r.prompt
      r.referenceImage r.model response

/-- The validation/resolution stage of POST /api/llm/suggestions
(src/server/index.ts:82-86). -/
structure SuggestionsResolved : Type where
  base64Data : String
  mimeType : String
  provider : String
  model : String

/-- Validation and resolution for the suggestions route, in source order. -/
def resolveSuggestionsRequest (cfg : ServerConfig) (body : SuggestionsRequestBody) :
    Except HttpErr SuggestionsResolved :=
  match ensureNonEmptyString body.base64Data "O campo \"base64Data\" é obrigatório." with
  | .error e => .error e
  | .ok base64Data =>
    match ensureNonEmptyString body.mimeType "O campo \"mimeType\" é obrigatório." with
    | .error e => .error e
    | .ok mimeType =>
      match resolveProvider body.provider with
      | .error e => .error e
      | .ok provider =>
        .ok ⟨base64Data, mimeType, provider,
          resolveModel body.model cfg.defaultSuggestionModel⟩

/-- The POST /api/llm/suggestions route (src/server/index.ts:81-90). -/
def suggestionsRoute (cfg : ServerConfig) (body : SuggestionsRequestBody)
    (response : GenerateContentResponse) : Bool × Except HttpErr String :=
  match resolveSuggestionsRequest cfg body with
  | .error e => (false, .error e)
  | .ok r => generateSuggestions r.provider r.base64Data r.mimeType r.model response

/-- An error reaching the dispatcher's catch block: either the typed
`HttpError` or an untyped (unexpected) exception carrying arbitrary
internal detail. -/
inductive ServerError : Type where
  | typed (e : HttpErr)
  | untyped (detail : String)
  deriving DecidableEq, Repr

/-- The client-visible part of a response: status code and the `message`
field of the JSON body. -/
structure WireError : Type where
  statusCode : Nat
  message : String
  deriving DecidableEq, Repr

/-- `handleError` (src/server/index.ts:328): a typed `HttpError` is
serialized with its own status and message; anything else becomes a
fixed generic 500. -/
def handleError : ServerError → WireError
  | .typed e => ⟨e.statusCode, e.message⟩
  | .untyped _ => ⟨500, "Erro interno do servidor. Consulte os logs para mais detalhes."⟩

/-- `haystack` contains `needle` as a contiguous substring. -/
def containsSub (haystack needle : String) : Prop :=
  ∃ pre post, haystack = pre ++ needle ++ post

/-! ### Helper lemmas -/

theorem jsTruthyStr_some_iff (s : String) : jsTruthyStr (some s) = true ↔ s ≠ "" := by
  simp [jsTruthyStr]

theorem isSome_of_jsTruthyStr {o : Option String} (h : jsTruthyStr o = true) : o ≠ none := by
  cases o <;> simp [jsTruthyStr] at *

theorem append_ne_empty_left {a : String} (b : String) (h : a ≠ "") : a ++ b ≠ "" := by
  intro hab
  apply h
  have hd := congrArg String.data hab
  rw [String.data_append] at hd
  rcases List.append_eq_nil.mp hd with ⟨h1, _⟩
  cases a
  simp_all

theorem coercePrompt_of_not_string {v : Option JsonValue}
    (h : ∀ s, v ≠ some (JsonValue.str s)) : coercePrompt v = "" := by
  match v with
  | none => rfl
  | some (.str s) => exact absurd rfl (h s)
  | some (.num _) => rfl
  | some (.bool _) => rfl
  | some .null => rfl
  | some (.obj _) => rfl
  | some (.arr _) => rfl

/-! ### Claim theorems -/

/-- C9: `handleError` serializes a typed `HttpError` with its own status
code and message; every untyped (unexpected) error becomes a fixed
generic 500 response, so any two distinct unexpected errors produce the
identical client-visible response. -/
theorem handleError_translation :
    (∀ msg code, handleError (.typed ⟨msg, code⟩) = ⟨code, msg⟩) ∧
    (∀ d, handleError (.untyped d) =
      ⟨500, "Erro interno do servidor. Consulte os logs para mais detalhes."⟩) ∧
    (∀ d1 d2, handleError (.untyped d1) = handleError (.untyped d2)) :=
  ⟨fun _ _ => rfl, fun _ => rfl, fun _ _ => rfl⟩

/-- C2 counterexample: when the backend text accessor returns the non-empty
but whitespace-only string " ", `suggest` returns the empty string
instead of raising an error — refuting "never returns an empty string". -/
theorem suggest_whitespace_text_returns_empty :
    generateGeminiSuggestions "QUJD" "image/jpeg" "gemini-2.5-flash"
      ⟨none, none, some " "⟩ = .ok "" := rfl

/-- C2 amended: `suggest` either fails with status 502 (when the backend
text is absent or empty) or returns the trimmed backend text — which is
the empty string exactly when the backend text is non-empty whitespace. -/
theorem suggest_trimmed_text_or_502 :
    ∀ b m mdl resp,
      (∃ s, resp.text = some s ∧ s ≠ "" ∧
        generateGeminiSuggestions b m mdl resp = .ok (jsTrim s)) ∨
      generateGeminiSuggestions b m mdl resp =
        .error ⟨"A IA não retornou sugestões. Tente novamente em instantes.", 502⟩ := by
  intro b m mdl resp
  cases h : resp.text with
  | none => right; simp [generateGeminiSuggestions, h]
  | some s =>
    by_cases hs : s = ""
    · right; simp [generateGeminiSuggestions, h, hs]
    · left; exact ⟨s, rfl, hs, by simp [generateGeminiSuggestions, h, hs]⟩

/-- C4: model resolution — a request-supplied string model with non-empty
trim is used (trimmed, so "custom-model" passes through unchanged);
anything else (absent, non-string, empty, whitespace-only) falls back to
the configured default for the operation. -/
theorem resolveModel_spec :
    (∀ s fb, jsTrim s ≠ "" → resolveModel (some (.str s)) fb = jsTrim s) ∧
    (∀ fb, resolveModel (some (.str "custom-model")) fb = "custom-model") ∧
    (∀ v fb, (∀ s, v = some (JsonValue.str s) → jsTrim s = "") →
      resolveModel v fb = fb) := by
  refine ⟨?_, ?_, ?_⟩
  · intro s fb h
    simp [resolveModel, h]
  · intro fb
    simp only [resolveModel]
    rw [if_neg (by decide)]
    decide
  · intro v fb h
    match v with
    | none => rfl
    | some (.str s) => simp [resolveModel, h s rfl]
    | some (.num _) => rfl
    | some (.bool _) => rfl
    | some .null => rfl
    | some (.obj _) => rfl
    | some (.arr _) => rfl

/-- C4 witness: "custom-model" is passed through unchanged; the
whitespace-only model " " falls back to the default. -/
theorem resolveModel_spec_witness :
    resolveModel (some (.str "custom-model")) "gemini-2.5-flash-image-preview" =
      "custom-model" ∧
    resolveModel (some (.str " ")) "gemini-2.5-flash-image-preview" =
      "gemini-2.5-flash-image-preview" :=
  ⟨resolveModel_spec.2.1 "gemini-2.5-flash-image-preview",
   resolveModel_spec.2.2 (some (.str " ")) "gemini-2.5-flash-image-preview"
     (by intro s h; cases h; decide)⟩

/-- C8: instruction synthesis for `edit` — with no reference image the
instruction contains the literal prompt; with a reference image and a
prompt that trims to empty it contains the fallback phrase; and with a
reference image the substituted guidance is never empty. -/
theorem edit_instruction_synthesis :
    (∀ p, containsSub (geminiEditFinalPrompt p none) p) ∧
    (∀ p ref, jsTrim p = "" →
      containsSub (geminiEditFinalPrompt p (some ref))
        "o estilo da imagem de referência") ∧
    (∀ p ref, ∃ g, g ≠ "" ∧
      geminiEditFinalPrompt p (some ref) =
        "Usando o penteado da segunda imagem como principal referência visual, " ++
          "aplique um estilo semelhante na pessoa da primeira imagem. " ++
          "Use a seguinte descrição como guia adicional: " ++ g ++ ".") := by
  refine ⟨?_, ?_, ?_⟩
  · intro p
    exact ⟨"Aplique este estilo de cabelo na pessoa da imagem: ", "",
      by simp [geminiEditFinalPrompt, String.append_empty]⟩
  · intro p ref h
    refine ⟨"Usando o penteado da segunda imagem como principal referência visual, " ++
      "aplique um estilo semelhante na pessoa da primeira imagem. " ++
      "Use a seguinte descrição como guia adicional: ", ".", ?_⟩
    simp [geminiEditFinalPrompt, h, String.append_assoc]
  · intro p ref
    by_cases h : jsTrim p = ""
    · exact ⟨"o estilo da imagem de referência", by decide,
        by simp [geminiEditFinalPrompt, h]⟩
    · exact ⟨jsTrim p, h, by simp [geminiEditFinalPrompt, h]⟩

/-- C8 witness: a concrete prompt appears literally in the no-reference
instruction; the empty prompt with a reference image yields the fallback
phrase. -/
theorem edit_instruction_synthesis_witness :
    containsSub (geminiEditFinalPrompt "corte bob" none) "corte bob" ∧
    containsSub (geminiEditFinalPrompt "" (some ⟨"QUJD", "image/png"⟩))
      "o estilo da imagem de referência" :=
  ⟨edit_instruction_synthesis.1 "corte bob",
   edit_instruction_synthesis.2.1 "" ⟨"QUJD", "image/png"⟩ rfl⟩

/-- C6: whenever the backend reports a (truthy) block reason, `edit` fails
with status 400; the message carries the backend's block message — which
is exactly the block reason whenever no separate `blockReasonMessage` is
present — and the outcome does not depend on the candidates at all, so
the rejection happens before any result extraction. -/
theorem edit_blocked_request_rejected (b m p : String)
    (ref : Option ReferenceImagePayload) (mdl : String)
    (resp : GenerateContentResponse)
    (h : jsTruthyStr (blockReasonOf resp) = true) :
    generateGeminiHairstyle b m p ref mdl resp =
      .error ⟨"Sua solicitação foi bloqueada: " ++ geminiBlockMessage resp, 400⟩ ∧
    containsSub ("Sua solicitação foi bloqueada: " ++ geminiBlockMessage resp)
      (geminiBlockMessage resp) ∧
    (jsTruthyStr (blockReasonMessageOf resp) = false →
      geminiBlockMessage resp = (blockReasonOf resp).getD "") ∧
    (∀ cs, generateGeminiHairstyle b m p ref mdl
        ⟨resp.promptFeedback, cs, resp.text⟩ =
      generateGeminiHairstyle b m p ref mdl resp) := by
  refine ⟨?_, ?_, ?_, ?_⟩
  · simp [generateGeminiHairstyle, h]
  · exact ⟨"Sua solicitação foi bloqueada: ", "", by simp [String.append_empty]⟩
  · intro hm
    simp [geminiBlockMessage, h, hm]
  · intro cs
    simp [generateGeminiHairstyle, blockReasonOf, geminiBlockMessage,
      blockReasonMessageOf] at h ⊢
    simp [h]

/-- C6 witness: a response blocked with reason "SAFETY" and no block
message makes `edit` fail with 400 and a message containing "SAFETY". -/
theorem edit_blocked_request_rejected_witness :
    generateGeminiHairstyle "QUJD" "image/jpeg" "corte bob" none "m"
      ⟨some ⟨some "SAFETY", none⟩, none, none⟩ =
      .error ⟨"Sua solicitação foi bloqueada: SAFETY", 400⟩ ∧
    containsSub "Sua solicitação foi bloqueada: SAFETY" "SAFETY" := by
  have h := edit_blocked_request_rejected "QUJD" "image/jpeg" "corte bob" none "m"
    ⟨some ⟨some "SAFETY", none⟩, none, none⟩ (by decide)
  exact ⟨h.1, h.2.1⟩

/-- C1: every successful `edit` result has a non-null image or a non-null
text; and a non-blocked response containing neither an inline-binary
part nor a (truthy) text part makes `edit` fail with status 502. -/
theorem edit_success_image_or_text :
    (∀ b m p ref mdl resp r,
      generateGeminiHairstyle b m p ref mdl resp = .ok r →
      r.image ≠ none ∨ r.text ≠ none) ∧
    (∀ b m p ref mdl resp,
      jsTruthyStr (blockReasonOf resp) = false →
      findImagePart resp = none → findTextPart resp = none →
      generateGeminiHairstyle b m p ref mdl resp =
        .error ⟨"A IA não conseguiu gerar uma imagem. Tente ajustar a descrição " ++
          "ou utilizar outra imagem de referência.", 502⟩) := by
  constructor
  · intro b m p ref mdl resp r h
    simp only [generateGeminiHairstyle] at h
    split at h
    · exact absurd h (by simp)
    · split at h
      · rename_i hc
        rw [Except.ok.injEq] at h
        subst h
        rw [Bool.or_eq_true] at hc
        rcases hc with h1 | h1
        · exact Or.inl (isSome_of_jsTruthyStr h1)
        · exact Or.inr (isSome_of_jsTruthyStr h1)
      · exact absurd h (by simp)
  · intro b m p ref mdl resp hb hi ht
    simp only [generateGeminiHairstyle, hb, hi, ht]
    simp [jsTruthyStr]

/-- C1 witness: a response with one inline part succeeds with a non-null
image; the all-empty response ends in the 502 error. -/
theorem edit_success_image_or_text_witness :
    ((⟨some "data:image/png;base64,QUJD", none⟩ : GeneratedContent).image ≠ none ∨
      (⟨some "data:image/png;base64,QUJD", none⟩ : GeneratedContent).text ≠ none) ∧
    generateGeminiHairstyle "QUJD" "image/jpeg" "corte bob" none "m"
      ⟨none, none, none⟩ =
      .error ⟨"A IA não conseguiu gerar uma imagem. Tente ajustar a descrição " ++
        "ou utilizar outra imagem de referência.", 502⟩ :=
  ⟨edit_success_image_or_text.1 "QUJD" "image/jpeg" "corte bob" none "m"
      ⟨none, some [⟨some ⟨some [⟨none, some ⟨"image/png", "QUJD"⟩⟩]⟩⟩], none⟩
      ⟨some "data:image/png;base64,QUJD", none⟩ rfl,
   edit_success_image_or_text.2 "QUJD" "image/jpeg" "corte bob" none "m"
      ⟨none, none, none⟩ rfl rfl rfl⟩

/-- C3: when the response is not blocked and its first inline-binary part
declares mime type M with base64 payload D, `edit` succeeds and the
result's image is exactly the data URL "data:" ++ M ++ ";base64," ++ D. -/
theorem edit_image_is_data_url (b m p : String) (ref : Option ReferenceImagePayload)
    (mdl : String) (resp : GenerateContentResponse) (part : LlmContentPart)
    (M D : String)
    (hb : jsTruthyStr (blockReasonOf resp) = false)
    (hf : findImagePart resp = some part)
    (hd : part.inlineData = some ⟨M, D⟩) :
    ∃ r, generateGeminiHairstyle b m p ref mdl resp = .ok r ∧
      r.image = some ("data:" ++ M ++ ";base64," ++ D) := by
  have himg : jsTruthyStr (some ("data:" ++ M ++ ";base64," ++ D)) = true := by
    rw [jsTruthyStr_some_iff]
    exact append_ne_empty_left D
      (append_ne_empty_left ";base64," (append_ne_empty_left M (by decide)))
  refine ⟨⟨some ("data:" ++ M ++ ";base64," ++ D),
    match findTextPart resp with
    | some p => if jsTruthyStr p.text then some (jsTrim (p.text.getD "")) else none
    | none => none⟩, ?_, rfl⟩
  simp [generateGeminiHairstyle, hb, hf, hd, himg]

/-- C3 witness: the round-trip of the spec — mime "image/png" with payload
"QUJD" comes back as exactly "data:image/png;base64,QUJD". -/
theorem edit_image_is_data_url_witness :
    ∃ r, generateGeminiHairstyle "QUJD" "image/jpeg" "corte bob" none "m"
        ⟨none, some [⟨some ⟨some [⟨none, some ⟨"image/png", "QUJD"⟩⟩]⟩⟩], none⟩ =
        .ok r ∧
      r.image = some "data:image/png;base64,QUJD" :=
  edit_image_is_data_url "QUJD" "image/jpeg" "corte bob" none "m"
    ⟨none, some [⟨some ⟨some [⟨none, some ⟨"image/png", "QUJD"⟩⟩]⟩⟩], none⟩
    ⟨none, some ⟨"image/png", "QUJD"⟩⟩ "image/png" "QUJD" rfl rfl rfl

/-- C7 counterexample: a backend response blocked with reason "SAFETY" and
no text makes `suggest` fail with status 502 and the generic
no-suggestions message — not with RequestRejected/400 surfacing the
reason, as the claim demands. -/
theorem suggest_blocked_gives_502_not_400 :
    generateGeminiSuggestions "QUJD" "image/jpeg" "gemini-2.5-flash"
      ⟨some ⟨some "SAFETY", none⟩, none, none⟩ =
      .error ⟨"A IA não retornou sugestões. Tente novamente em instantes.", 502⟩ := rfl

/-- C7 amended: `suggest` ignores the block feedback entirely — its result
never depends on `promptFeedback` — and whenever the backend returns no
truthy text (as for a blocked request) it fails with status 502 and the
generic message. -/
theorem suggest_ignores_block_feedback :
    (∀ b m mdl resp pf,
      generateGeminiSuggestions b m mdl ⟨pf, resp.candidates, resp.text⟩ =
        generateGeminiSuggestions b m mdl resp) ∧
    (∀ b m mdl resp, jsTruthyStr resp.text = false →
      generateGeminiSuggestions b m mdl resp =
        .error ⟨"A IA não retornou sugestões. Tente novamente em instantes.", 502⟩) := by
  constructor
  · intro b m mdl resp pf
    rfl
  · intro b m mdl resp h
    cases ht : resp.text with
    | none => simp [generateGeminiSuggestions, ht]
    | some s =>
      rw [ht] at h
      simp [jsTruthyStr] at h
      simp [generateGeminiSuggestions, ht, h]

/-- C7 witness for the amended claim: the blocked, text-less response gets
the 502 error. -/
theorem suggest_ignores_block_feedback_witness :
    generateGeminiSuggestions "QUJD" "image/jpeg" "gemini-2.5-flash"
      ⟨some ⟨some "SAFETY", some "Bloqueado"⟩, none, none⟩ =
      .error ⟨"A IA não retornou sugestões. Tente novamente em instantes.", 502⟩ :=
  suggest_ignores_block_feedback.2 "QUJD" "image/jpeg" "gemini-2.5-flash"
    ⟨some ⟨some "SAFETY", some "Bloqueado"⟩, none, none⟩ rfl

/-- A successful resolution of an edit request implies the provider
resolver succeeded on the body's provider field, yielding the resolved
provider. -/
theorem resolveEditRequest_ok_provider {cfg : ServerConfig} {body : EditRequestBody}
    {r : EditResolved} (h : resolveEditRequest cfg body = .ok r) :
    resolveProvider body.provider = .ok r.provider := by
  simp only [resolveEditRequest] at h
  split at h
  · exact absurd h (by simp)
  · split at h
    · exact absurd h (by simp)
    · split at h
      · exact absurd h (by simp)
      · split at h
        · exact absurd h (by simp)
        · rename_i heq
          rw [Except.ok.injEq] at h
          subst h
          exact heq

/-- Same for the suggestions route. -/
theorem resolveSuggestionsRequest_ok_provider {cfg : ServerConfig}
    {body : SuggestionsRequestBody} {r : SuggestionsResolved}
    (h : resolveSuggestionsRequest cfg body = .ok r) :
    resolveProvider body.provider = .ok r.provider := by
  simp only [resolveSuggestionsRequest] at h
  split at h
  · exact absurd h (by simp)
  · split at h
    · exact absurd h (by simp)
    · split at h
      · exact absurd h (by simp)
      · rename_i heq
        rw [Except.ok.injEq] at h
        subst h
        exact heq

/-- A provider key whose trim is non-empty and differs from "gemini"
makes `resolveProvider` fail with the 400 error naming it. -/
theorem resolveProvider_mismatch {s : String} (h1 : jsTrim s ≠ "")
    (h2 : jsTrim s ≠ "gemini") :
    resolveProvider (some (.str s)) =
      .error ⟨"Provedor \"" ++ jsTrim s ++ "\" não é suportado pelo servidor.", 400⟩ := by
  simp [resolveProvider, h1, h2]

/-- C5: a request-supplied provider key other than "gemini" fails with a
400 error whose message names the offending key, both routes return
without invoking the backend for such a request (flag `false`), and an
absent provider key resolves to the process default. -/
theorem provider_resolution :
    (∀ s, jsTrim s ≠ "" → jsTrim s ≠ "gemini" →
      resolveProvider (some (.str s)) =
        .error ⟨"Provedor \"" ++ jsTrim s ++ "\" não é suportado pelo servidor.", 400⟩ ∧
      containsSub ("Provedor \"" ++ jsTrim s ++ "\" não é suportado pelo servidor.")
        (jsTrim s)) ∧
    (∀ cfg body resp s, body.provider = some (JsonValue.str s) →
      jsTrim s ≠ "" → jsTrim s ≠ "gemini" →
      (editRoute cfg body resp).1 = false) ∧
    (∀ cfg body resp s, body.provider = some (JsonValue.str s) →
      jsTrim s ≠ "" → jsTrim s ≠ "gemini" →
      (suggestionsRoute cfg body resp).1 = false) ∧
    resolveProvider none = .ok DEFAULT_PROVIDER := by
  refine ⟨?_, ?_, ?_, rfl⟩
  · intro s h1 h2
    exact ⟨resolveProvider_mismatch h1 h2,
      ⟨"Provedor \"", "\" não é suportado pelo servidor.", by simp [String.append_assoc]⟩⟩
  · intro cfg body resp s hp h1 h2
    unfold editRoute
    cases hres : resolveEditRequest cfg body with
    | error e => rfl
    | ok r =>
      exfalso
      have hpr := resolveEditRequest_ok_provider hres
      rw [hp, resolveProvider_mismatch h1 h2] at hpr
      exact Except.noConfusion hpr
  · intro cfg body resp s hp h1 h2
    unfold suggestionsRoute
    cases hres : resolveSuggestionsRequest cfg body with
    | error e => rfl
    | ok r =>
      exfalso
      have hpr := resolveSuggestionsRequest_ok_provider hres
      rw [hp, resolveProvider_mismatch h1 h2] at hpr
      exact Except.noConfusion hpr

/-- C5 witness: provider "unknown-x" against the gemini-only registry is
rejected with 400 naming it, neither route touches the backend, and an
absent provider falls back to "gemini". -/
theorem provider_resolution_witness :
    resolveProvider (some (.str "unknown-x")) =
      .error ⟨"Provedor \"unknown-x\" não é suportado pelo servidor.", 400⟩ ∧
    containsSub "Provedor \"unknown-x\" não é suportado pelo servidor." "unknown-x" ∧
    (editRoute ⟨"gemini-2.5-flash", "gemini-2.5-flash-image-preview"⟩
      ⟨some (.str "QUJD"), some (.str "image/jpeg"), none, none,
        some (.str "unknown-x"), none⟩ ⟨none, none, none⟩).1 = false ∧
    (suggestionsRoute ⟨"gemini-2.5-flash", "gemini-2.5-flash-image-preview"⟩
      ⟨some (.str "QUJD"), some (.str "image/jpeg"),
        some (.str "unknown-x"), none⟩ ⟨none, none, none⟩).1 = false ∧
    resolveProvider none = .ok "gemini" := by
  have h := provider_resolution
  refine ⟨(h.1 "unknown-x" (by decide) (by decide)).1,
    (h.1 "unknown-x" (by decide) (by decide)).2,
    h.2.1 _ _ _ "unknown-x" rfl (by decide) (by decide),
    h.2.2.1 _ _ _ "unknown-x" rfl (by decide) (by decide),
    h.2.2.2⟩

/-- C10: a missing or non-string prompt is coerced to the empty string; an
edit request without a usable prompt behaves exactly like one with
prompt "" end to end; and with a reference image present the empty
prompt triggers the fallback phrase in the synthesized instruction. -/
theorem edit_prompt_coercion :
    (∀ v, (∀ s, v ≠ some (JsonValue.str s)) → coercePrompt v = "") ∧
    (∀ cfg resp b64 mt ri pv md v, (∀ s, v ≠ some (JsonValue.str s)) →
      editRoute cfg ⟨b64, mt, v, ri, pv, md⟩ resp =
        editRoute cfg ⟨b64, mt, some (.str ""), ri, pv, md⟩ resp) ∧
    (∀ ref, containsSub (geminiEditFinalPrompt "" (some ref))
      "o estilo da imagem de referência") := by
  refine ⟨fun v h => coercePrompt_of_not_string h, ?_, ?_⟩
  · intro cfg resp b64 mt ri pv md v h
    have hv := coercePrompt_of_not_string h
    have hv0 : coercePrompt (some (JsonValue.str "")) = "" := rfl
    simp only [editRoute, resolveEditRequest, hv, hv0]
  · intro ref
    refine ⟨"Usando o penteado da segunda imagem como principal referência visual, " ++
      "aplique um estilo semelhante na pessoa da primeira imagem. " ++
      "Use a seguinte descrição como guia adicional: ", ".", ?_⟩
    simp [geminiEditFinalPrompt, show jsTrim "" = "" from rfl, String.append_assoc]

/-- C10 witness: the edit body with no prompt field gives the same route
outcome as the body with prompt "", and the empty prompt with a
reference image produces the fallback phrase. -/
theorem edit_prompt_coercion_witness :
    coercePrompt none = "" ∧
    editRoute ⟨"gemini-2.5-flash", "gemini-2.5-flash-image-preview"⟩
        ⟨some (.str "QUJD"), some (.str "image/jpeg"), none, none, none, none⟩
        ⟨none, none, none⟩ =
      editRoute ⟨"gemini-2.5-flash", "gemini-2.5-flash-image-preview"⟩
        ⟨some (.str "QUJD"), some (.str "image/jpeg"), some (.str ""), none, none, none⟩
        ⟨none, none, none⟩ ∧
    containsSub (geminiEditFinalPrompt "" (some ⟨"QUJD", "image/jpeg"⟩))
      "o estilo da imagem de referência" :=
  ⟨edit_prompt_coercion.1 none (fun _ h => Option.noConfusion h),
   edit_prompt_coercion.2.1 _ _ _ _ _ _ _ none (fun _ h => Option.noConfusion h),
   edit_prompt_coercion.2.2 ⟨"QUJD", "image/jpeg"⟩⟩

end HairstyleAI
